import Mathlib

/-!
Shallow embedding of the confluence-dumper export pipeline, translated from
src/confluence_dumper.py and src/utils.py.  Python strings are Lean strings
(both indexed by unicode code points), Python dicts are association lists
whose head binding shadows later ones (so dict update is modelled by cons),
and fallible Python code returns Except values whose error constructor names
the Python exception.  External collaborators (the requests transport,
BeautifulSoup, urllib quoting, the regex template substitution) are
parameters of the embedding, collected in the Env structure below.
-/

set_option maxRecDepth 100000

namespace ConfluenceDumper

/-- Python exceptions that the embedded code fragment can raise. -/
inductive PyError where
  | indexError
  | keyError
  | typeError
  deriving DecidableEq

/-- Whether the first list is an initial segment of the second. -/
def beginsWith : List Char → List Char → Bool
  | [], _ => true
  | _ :: _, [] => false
  | a :: as, b :: bs => a == b && beginsWith as bs

/-- Worker for pySplit: fuel-indexed leftmost, non-overlapping split of a
character list at a nonempty separator.  The fuel is always at least the
length of the list plus one at the top-level call, so the fuel-exhausted
branch is never taken there; it exists only to make the recursion
structural. -/
def pySplitGo (sep : List Char) : Nat → List Char → List (List Char)
  | 0, l => [l]
  | fuel + 1, l =>
    match l with
    | [] => [[]]
    | c :: rest =>
      if beginsWith sep l then
        [] :: pySplitGo sep fuel (l.drop sep.length)
      else
        match pySplitGo sep fuel rest with
        | [] => [[c]]
        | s :: ss => (c :: s) :: ss

/-- Python str.split(sep) for a nonempty separator sep. -/
def pySplit (s sep : String) : List String :=
  (pySplitGo sep.toList (s.toList.length + 1) s.toList).map String.mk

/-- Python substring membership, the expression sub in s, for a nonempty sub:
the split at sub has more than one part exactly when sub occurs in s. -/
def pyContains (s sub : String) : Bool :=
  1 < (pySplit s sub).length

/-- Python str.replace(old, new) for a nonempty old: rejoin the split parts
with the replacement. -/
def pyReplace (s old new : String) : String :=
  String.intercalate new (pySplit s old)

/-- Python str.replace(old, new, 1): only the first occurrence is replaced. -/
def pyReplaceFirst (s old new : String) : String :=
  match pySplit s old with
  | [] => s
  | [x] => x
  | x :: y :: rest => x ++ new ++ String.intercalate old (y :: rest)

/-- Python str.lower. -/
def pyToLower (s : String) : String :=
  String.mk (s.toList.map Char.toLower)

/-- Python str.endswith. -/
def pyEndsWith (s t : String) : Bool :=
  beginsWith t.toList.reverse s.toList.reverse

/-- Rightmost index of the character c in l, or -1 when c is absent. -/
def lastIndexOfChar : List Char → Char → Int
  | [], _ => -1
  | x :: xs, c =>
    let r := lastIndexOfChar xs c
    if 0 ≤ r then r + 1
    else if x = c then 0 else -1

/-- Python str.rfind for a one-character needle: rightmost index or -1. -/
def pyRFind (s : String) (c : Char) : Int :=
  lastIndexOfChar s.toList c

/-- Python slice s[:i] with a possibly negative bound i: a negative bound
counts from the end of the string, truncating at 0. -/
def pySliceTo (s : String) (i : Int) : String :=
  if 0 ≤ i then s.take i.toNat
  else s.take (s.length - i.natAbs)

/-- The character class of utils.sanitize_for_filename (utils.py line 112). -/
def sanitizedChars : List Char := ['\\', '/', ':', '*', '?', '"', '<', '>', '|']

/-- utils.sanitize_for_filename (utils.py lines 106-113): every character of
the hostile class is replaced by an underscore. -/
def sanitize_for_filename (original_string : String) : String :=
  String.mk (original_string.toList.map (fun c => if sanitizedChars.contains c then '_' else c))

/-- The URL segment marking generated previews (confluence_dumper.py line 67). -/
def docConvSegment : String := "/rest/documentConversion/latest/conversion/thumbnail/"

/-- confluence_dumper.derive_downloaded_file_name (lines 44-71).  Python reads
parts 3, 2 and 4 of the URL split at the slash and raises IndexError when one
is missing; the embedding returns Except.error PyError.indexError there.
Except.ok none models the Python return value None of the final branch.  In
the generated-preview branch the index 1 into the split is guarded by the
containment test, hence the panic-free getD. -/
def derive_downloaded_file_name (download_url : String) : Except PyError (Option String) :=
  if pyContains download_url "/download/" then
    let download_url_parts := pySplit download_url "/"
    match download_url_parts[3]?, download_url_parts[2]?, download_url_parts[4]? with
    | some download_page_id, some download_file_type, some namePart =>
      let last_question_mark_index := pyRFind namePart '?'
      let download_original_file_name := pySliceTo namePart last_question_mark_index
      .ok (some (download_page_id ++ "_" ++ download_file_type ++ "_" ++ download_original_file_name))
    | _, _, _ => .error .indexError
  else if pyContains download_url docConvSegment then
    let file_id := pySliceTo ((pySplit download_url docConvSegment).getD 1 "") (-2)
    .ok (some ("generated_preview_" ++ file_id ++ ".jpg"))
  else
    .ok none

/-- The pair of cooperating dictionaries of provide_unique_file_name:
duplicate_file_names maps a sanitized base name to its duplicate count and
file_matching maps an original title to its assigned local name. -/
structure NameRegistry where
  duplicate_file_names : List (String × Nat)
  file_matching : List (String × String)
  deriving DecidableEq

/-- A fresh registry, as created per space at the call sites. -/
def NameRegistry.empty : NameRegistry := ⟨[], []⟩

/-- Python truthiness of an optional string: None and the empty string are
falsy (the tests at confluence_dumper.py lines 99 and 113). -/
def pyTruthyStr : Option String → Bool
  | none => false
  | some s => s != ""

/-- Python str.rsplit at the last dot with maxsplit 1, used only under the
guard that the string contains a dot (confluence_dumper.py lines 102-103). -/
def rsplitDot (s : String) : String × String :=
  let parts := pySplit s "."
  (String.intercalate "." parts.dropLast, parts.getLastD "")

/-- Lines 95-105 of confluence_dumper.py: sanitize the title and choose the
file extension (folders get none, an explicit truthy extension wins,
otherwise the extension is inferred from a dot in the sanitized name). -/
def chooseNameAndExtension (file_title : String) (is_folder : Bool)
    (explicit_file_extension : Option String) : String × Option String :=
  let file_name := sanitize_for_filename file_title
  if is_folder then (file_name, none)
  else if pyTruthyStr explicit_file_extension then (file_name, explicit_file_extension)
  else if pyContains file_name "." then
    let p := rsplitDot file_name
    (p.1, some p.2)
  else (file_name, none)

/-- Lines 107-111 of confluence_dumper.py: on a collision of the base name the
duplicate count is bumped and appended as a suffix; note that only the base
name, never the suffixed result, is recorded in duplicate_file_names. -/
def resolveDuplicate (duplicate_file_names : List (String × Nat)) (file_name : String) :
    String × List (String × Nat) :=
  match duplicate_file_names.lookup file_name with
  | some n =>
    (file_name ++ "_" ++ toString (n + 1), (file_name, n + 1) :: duplicate_file_names)
  | none => (file_name, (file_name, 0) :: duplicate_file_names)

/-- Lines 95-116 of confluence_dumper.py: the branch of
provide_unique_file_name for a title that has no assignment yet. -/
def assignFreshName (reg : NameRegistry) (file_title : String) (is_folder : Bool)
    (explicit_file_extension : Option String) : String × NameRegistry :=
  let ne := chooseNameAndExtension file_title is_folder explicit_file_extension
  let rd := resolveDuplicate reg.duplicate_file_names ne.1
  let file_name := if pyTruthyStr ne.2 then rd.1 ++ "." ++ ne.2.getD "" else rd.1
  (file_name, ⟨rd.2, (file_title, file_name) :: reg.file_matching⟩)

/-- confluence_dumper.provide_unique_file_name (lines 74-117).  The returned
registry models the in-place mutation of the two dictionaries. -/
def provide_unique_file_name (reg : NameRegistry) (file_title : String)
    (is_folder : Bool := false) (explicit_file_extension : Option String := none) :
    String × NameRegistry :=
  match reg.file_matching.lookup file_title with
  | some file_name => (file_name, reg)
  | none => assignFreshName reg file_title is_folder explicit_file_extension

/-- One element of the parsed markup tree with its attribute dict; the
embedding keeps exactly the data the four rewrite passes inspect. -/
structure Element where
  tag : String
  attrs : List (String × String)
  deriving DecidableEq

/-- The parsed markup tree, flattened to the element list the selector-driven
passes iterate over. -/
abbrev HtmlDoc := List Element

/-- The external collaborators of the embedded code, as the spec delimits
them: the transport (utils.http_download_binary_file reduced to its
observable url-to-content behaviour), the BeautifulSoup parser and
serializer, the urllib quoting pair behind utils.decode_url and
utils.encode_url, the regex template substitution of utils.write_html_2_file,
and the settings module values the code reads. -/
structure Env where
  confluence_base_url : String
  download_sub_folder : String
  confluence_thumbnail_formats : List String
  confluence_generated_preview_formats : List String
  net : String → Except String String
  parse : String → Option HtmlDoc
  render : HtmlDoc → String
  decode_url : String → String
  encode_url : String → String
  render_template : String → String → String → String → String

/-- The class attribute as bs4 exposes it: none when the attribute is absent,
otherwise its whitespace-separated tokens. -/
def Element.classList (e : Element) : Option (List String) :=
  (e.attrs.lookup "class").map (fun s => (pySplit s " ").filter (fun t => t != ""))

/-- The falsiness test on element.get("class") at lines 153 and 166 of
confluence_dumper.py: an absent or empty class list is falsy. -/
def Element.hasNoClass (e : Element) : Bool :=
  match e.classList with
  | none => true
  | some l => l.isEmpty

/-- Dict-style attribute update, element[key] = value. -/
def Element.setAttr (e : Element) (k v : String) : Element :=
  { e with attrs := (k, v) :: e.attrs.filter (fun p => p.1 != k) }

/-- confluence_dumper.get_page_title (lines 194-199): part 4 of the href
split at the slash, or part 3 when the IndexError is caught; a missing part 3
raises IndexError out of the function.  The plus signs of the surviving part
become spaces. -/
def get_page_title (href : String) : Except PyError String :=
  let parts := pySplit href "/"
  match parts[4]? with
  | some t => .ok (pyReplace t "+" " ")
  | none =>
    match parts[3]? with
    | some t => .ok (pyReplace t "+" " ")
    | none => .error .indexError

/-- The CSS selector at line 151: anchors whose href contains /display/. -/
def selectsDisplayLink (e : Element) : Bool :=
  e.tag == "a" &&
    (match e.attrs.lookup "href" with
     | some h => pyContains h "/display/"
     | none => false)

/-- confluence_dumper.handle_links_to_pages (lines 150-160): classless
display links are resolved through the page registry with the html extension
and rewritten to the encoded offline name. -/
def handle_links_to_pages (env : Env) :
    HtmlDoc → NameRegistry → Except PyError (HtmlDoc × NameRegistry)
  | [], reg => .ok ([], reg)
  | e :: rest, reg =>
    if selectsDisplayLink e && e.hasNoClass then do
      let page_title ← get_page_title ((e.attrs.lookup "href").getD "")
      let decoded_page_title := env.decode_url page_title
      let r := provide_unique_file_name reg decoded_page_title false (some "html")
      let e2 := e.setAttr "href" (env.encode_url r.1)
      let rr ← handle_links_to_pages env rest r.2
      .ok (e2 :: rr.1, rr.2)
    else do
      let rr ← handle_links_to_pages env rest reg
      .ok (e :: rr.1, rr.2)

/-- The URL segment marking page-id links (confluence_dumper.py line 164). -/
def viewpageSegment : String := "/pages/viewpage.action?pageId="

/-- The CSS selector at line 164. -/
def selectsViewpageLink (e : Element) : Bool :=
  e.tag == "a" &&
    (match e.attrs.lookup "href" with
     | some h => pyContains h viewpageSegment
     | none => false)

/-- confluence_dumper.handle_links_when_page_ids_used (lines 163-169); the
index 1 into the split is guarded by the selector containment. -/
def handle_links_when_page_ids_used (env : Env) : HtmlDoc → HtmlDoc
  | [] => []
  | e :: rest =>
    if selectsViewpageLink e && e.hasNoClass then
      let page_id := (pySplit ((e.attrs.lookup "href").getD "") viewpageSegment).getD 1 ""
      let offline_link := sanitize_for_filename page_id ++ ".html"
      e.setAttr "href" (env.encode_url offline_link) :: handle_links_when_page_ids_used env rest
    else e :: handle_links_when_page_ids_used env rest

/-- Python str() of an optional string where an f-string interpolates it:
None prints as the text None. -/
def pyStrOfOption : Option String → String
  | none => "None"
  | some s => s

/-- The CSS selector at line 173: anchors carrying the
confluence-embedded-file class. -/
def selectsEmbeddedFile (e : Element) : Bool :=
  e.tag == "a" && ((e.classList.getD []).contains "confluence-embedded-file")

/-- confluence_dumper.handle_attachment_links (lines 172-178).  Python reads
link_element["href"] without a guard, so an embedded-file anchor without an
href raises KeyError; a derived name of None is interpolated as the text
None. -/
def handle_attachment_links (env : Env) : HtmlDoc → Except PyError HtmlDoc
  | [] => .ok []
  | e :: rest =>
    if selectsEmbeddedFile e then do
      let file_url ← match e.attrs.lookup "href" with
        | some h => Except.ok h
        | none => Except.error PyError.keyError
      let file_name ← derive_downloaded_file_name file_url
      let relative_file_path := env.download_sub_folder ++ "/" ++ pyStrOfOption file_name
      let rr ← handle_attachment_links env rest
      .ok (e.setAttr "href" relative_file_path :: rr)
    else do
      let rr ← handle_attachment_links env rest
      .ok (e :: rr)

/-- The CSS selector at lines 182-184: images whose src contains /download/
or the generated-preview segment. -/
def selectsDownloadImage (e : Element) : Bool :=
  e.tag == "img" &&
    (match e.attrs.lookup "src" with
     | some h => pyContains h "/download/" || pyContains h docConvSegment
     | none => false)

/-- confluence_dumper.handle_image_links (lines 181-191): the src is
rewritten to the derived relative path and a missing alt attribute is set to
that path. -/
def handle_image_links (env : Env) : HtmlDoc → Except PyError HtmlDoc
  | [] => .ok []
  | e :: rest =>
    if selectsDownloadImage e then do
      let file_url := (e.attrs.lookup "src").getD ""
      let file_name ← derive_downloaded_file_name file_url
      let relative_file_path := env.download_sub_folder ++ "/" ++ pyStrOfOption file_name
      let e2 := e.setAttr "src" relative_file_path
      let e2 := if (e2.attrs.lookup "alt").isNone then e2.setAttr "alt" relative_file_path else e2
      let rr ← handle_image_links env rest
      .ok (e2 :: rr)
    else do
      let rr ← handle_image_links env rest
      .ok (e :: rr)

/-- confluence_dumper.handle_html_references (lines 120-147): empty content
short-circuits to the empty string, a parse failure returns the content
unchanged after printing a warning, otherwise the four rewrite passes run in
order and the mutated tree is serialized once. -/
def handle_html_references (env : Env) (html_content : String) (reg : NameRegistry) :
    Except PyError (String × NameRegistry) :=
  if html_content = "" then .ok ("", reg)
  else
    match env.parse html_content with
    | none => .ok (html_content, reg)
    | some html_tree => do
      let r1 ← handle_links_to_pages env html_tree reg
      let t2 := handle_links_when_page_ids_used env r1.1
      let t3 ← handle_attachment_links env t2
      let t4 ← handle_image_links env t3
      .ok (env.render t4, r1.2)

/-- utils.is_file_format (utils.py lines 134-142): the extension is the last
dot-separated part of the name. -/
def is_file_format (file_name : String) (file_extensions : List String) : Bool :=
  file_extensions.contains ((pySplit file_name ".").getLastD "")

/-- The path component of urllib.parse.urlparse for the scheme-less download
links processed here: the characters before any fragment or query part. -/
def urlPath (url : String) : String :=
  (pySplit ((pySplit url "#").headD "") "?").headD ""

/-- The observable input/output state threaded through the embedding: the
local filesystem as a map from path to contents, and the absolute URLs for
which a network file transfer was issued, in order. -/
structure IOState where
  fs : List (String × String)
  transfers : List String
  deriving DecidableEq

/-- The state of a fresh export run. -/
def IOState.empty : IOState := ⟨[], []⟩

/-- confluence_dumper.download_file (lines 202-235).  The existence test is a
lookup in the modelled filesystem; on a miss the binary download is issued
through env.net, a ConfluenceException from the transport is caught and only
logged, and the destination path is returned in every case. -/
def download_file (env : Env) (st : IOState)
    (clean_url download_folder downloaded_file_name : String) : IOState × String :=
  let downloaded_file_path := download_folder ++ "/" ++ downloaded_file_name
  if (st.fs.lookup downloaded_file_path).isSome then (st, downloaded_file_path)
  else
    let absolute_download_url := env.confluence_base_url ++ clean_url
    match env.net absolute_download_url with
    | .ok content =>
      ({ fs := (downloaded_file_path, content) :: st.fs,
         transfers := st.transfers ++ [absolute_download_url] }, downloaded_file_path)
    | .error _ =>
      ({ st with transfers := st.transfers ++ [absolute_download_url] }, downloaded_file_path)

/-- The dict returned by download_attachment (line 289). -/
structure AttachmentInfo where
  file_name : String
  file_path : String
  deriving DecidableEq

/-- provide_unique_file_name as called with a possibly-None derived title
(confluence_dumper.py lines 259-261 and 267-269): a None title misses the
string-keyed file_matching dict and then reaches re.sub inside
sanitize_for_filename, which raises TypeError. -/
def provide_unique_file_name_py (reg : NameRegistry) (file_title : Option String) :
    Except PyError (String × NameRegistry) :=
  match file_title with
  | some t => .ok (provide_unique_file_name reg t)
  | none => .error .typeError

/-- confluence_dumper.download_attachment (lines 238-289): the primary file,
the thumbnail variant when its derived name has a thumbnail format, and the
generated preview when the primary name has a preview format.  Note that the
primary download is issued with the still-encoded download_url and that both
variant names pass through the registry before their format test. -/
def download_attachment (env : Env) (st : IOState) (regA : NameRegistry)
    (download_url download_folder attachment_id : String) :
    Except PyError (IOState × NameRegistry × AttachmentInfo) := do
  let clean_url := env.decode_url download_url
  let dfn ← derive_downloaded_file_name clean_url
  let r1 ← provide_unique_file_name_py regA dfn
  let downloaded_file_name := r1.1
  let regA := r1.2
  let df := download_file env st download_url download_folder downloaded_file_name
  let st := df.1
  let downloaded_file_path := df.2
  let clean_thumbnail_url := pyReplaceFirst clean_url "/attachments/" "/thumbnails/"
  let tfn ← derive_downloaded_file_name clean_thumbnail_url
  let r2 ← provide_unique_file_name_py regA tfn
  let downloaded_thumbnail_file_name := r2.1
  let regA := r2.2
  let st :=
    if is_file_format downloaded_thumbnail_file_name env.confluence_thumbnail_formats then
      (download_file env st clean_thumbnail_url download_folder downloaded_thumbnail_file_name).1
    else st
  let r3 ←
    if is_file_format downloaded_file_name env.confluence_generated_preview_formats then do
      let clean_preview_url := docConvSegment ++ attachment_id ++ "/1"
      let pfn ← derive_downloaded_file_name clean_preview_url
      let r ← provide_unique_file_name_py regA pfn
      Except.ok ((download_file env st clean_preview_url download_folder r.1).1, r.2)
    else Except.ok (st, regA)
  .ok (r3.1, r3.2, ⟨downloaded_file_name, downloaded_file_path⟩)

/-- One attachment resource of the remote API as read at lines 313-315: the
download link and the id whose first three characters are stripped. -/
structure AttachmentRef where
  download : String
  attId : String
  deriving DecidableEq

/-- The path_collection dict: every field is optional because line 414 of
confluence_dumper.py replaces the whole dict with the one built by
process_attachments, which carries only the child_attachments key. -/
inductive PathCollection where
  | mk (file_path : Option String) (page_title : Option String)
       (child_pages : Option (List PathCollection))
       (child_attachments : Option (List AttachmentInfo))

/-- The file_path entry, none when the key is absent. -/
def PathCollection.file_path : PathCollection → Option String
  | .mk v _ _ _ => v

/-- The page_title entry, none when the key is absent. -/
def PathCollection.page_title : PathCollection → Option String
  | .mk _ v _ _ => v

/-- The child_pages entry, none when the key is absent. -/
def PathCollection.child_pages : PathCollection → Option (List PathCollection)
  | .mk _ _ v _ => v

/-- The child_attachments entry, none when the key is absent. -/
def PathCollection.child_attachments : PathCollection → Option (List AttachmentInfo)
  | .mk _ _ _ v => v

/-- The inline-media extensions excluded from attachment processing
(confluence_dumper.py line 311). -/
def skip_types : List String := [".jpg", ".jpeg", ".png", ".gif", ".mp4", ".mov"]

/-- The loop body of process_attachments (lines 313-332): every attachment
whose lowercased URL path does not end in a skipped extension is downloaded
and its info dict is appended in order. -/
def processAttachmentList (env : Env) (download_folder : String) :
    List AttachmentRef → IOState → NameRegistry →
    Except PyError (IOState × NameRegistry × List AttachmentInfo)
  | [], st, regA => .ok (st, regA, [])
  | attachment :: rest, st, regA =>
    if skip_types.any (fun t => pyEndsWith (pyToLower (urlPath attachment.download)) t) then
      processAttachmentList env download_folder rest st regA
    else do
      let attachment_id := attachment.attId.drop 3
      let r ← download_attachment env st regA attachment.download download_folder attachment_id
      let rr ← processAttachmentList env download_folder rest r.1 r.2.1
      .ok (rr.1, rr.2.1, r.2.2 :: rr.2.2)

/-- confluence_dumper.process_attachments (lines 309-334): the returned dict
has exactly one key, child_attachments. -/
def process_attachments (env : Env) (download_folder : String)
    (results : List AttachmentRef) (st : IOState) (regA : NameRegistry) :
    Except PyError (IOState × NameRegistry × PathCollection) :=
  match processAttachmentList env download_folder results st regA with
  | .error e => .error e
  | .ok r => .ok (r.1, r.2.1, PathCollection.mk none none none (some r.2.2))

/-- The attachment pagination loop of fetch_page_recursively (lines 400-422).
Each round assigns the dict built by process_attachments to path_collection
(line 414), discarding the previous value; the batches are the successive
JSON responses of the pagination, of which a real run always has at least
one because the loop starts with a non-empty URL. -/
def attachmentsPaginationLoop (env : Env) (download_folder : String) :
    List (List AttachmentRef) → PathCollection → IOState → NameRegistry →
    Except PyError (PathCollection × IOState × NameRegistry)
  | [], path_collection, st, regA => .ok (path_collection, st, regA)
  | batch :: rest, _path_collection, st, regA =>
    match process_attachments env download_folder batch st regA with
    | .error e => .error e
    | .ok r => attachmentsPaginationLoop env download_folder rest r.2.2 r.1 r.2.1

/-- confluence_dumper.create_html_attachment_index (lines 292-306). -/
def create_html_attachment_index (env : Env) (attachments : List AttachmentInfo) : String :=
  let html_content := "\n\n<h2>Attachments</h2>"
  if 0 < attachments.length then
    html_content ++ "<ul>\n" ++
      String.join (attachments.map (fun attachment =>
        let relative_file_path :=
          String.intercalate "/" ((pySplit attachment.file_path "/").drop 2)
        let relative_file_path := env.encode_url relative_file_path
        "\t<li><a href=\"" ++ relative_file_path ++ "\">" ++ attachment.file_name ++ "</a></li>\n"))
      ++ "</ul>\n"
  else html_content

/-- settings.HTML_FORWARD_MESSAGE with its two interpolations applied. -/
def html_forward_message (link title : String) : String :=
  "<a href=\"" ++ link ++ "\">If you are not automatically forwarded to " ++ title ++
    ", please click here!</a>"

/-- Python sep.join(s) for a string s joins its characters; line 434 passes
the web URL string where write_html_2_file expects a header list, so this is
what its header join computes. -/
def pyJoinStrChars (sep s : String) : String :=
  String.intercalate sep (s.toList.map Char.toString)

/-- The remote page tree served by the content API, as fetch_page_recursively
observes it: the page id, the metadata response (title and body markup; none
models a ConfluenceException on the metadata request at line 378), the
successive result batches of the attachment pagination and of the child-page
pagination.  The pagination listing requests themselves are modelled as
succeeding; the failure of a child page is a child whose meta field is
none. -/
inductive RemotePage where
  | mk (pageId : String) (meta : Option (String × String))
       (attachmentBatches : List (List AttachmentRef))
       (childBatches : List (List RemotePage))

/-- Models path_collection["child_pages"].append(paths) at line 475: KeyError
when the record has lost its child_pages key. -/
def appendChildPage (pc paths : PathCollection) : Except PyError PathCollection :=
  match pc with
  | .mk fp pt cp ca =>
    match cp with
    | some l => .ok (.mk fp pt (some (l ++ [paths])) ca)
    | none => .error .keyError

mutual

/-- confluence_dumper.fetch_page_recursively (lines 337-486).  A metadata
failure is caught as ConfluenceException and yields none; otherwise the page
name is assigned, the full record of line 396 is built and then replaced by
the attachment pagination loop, the body is rewritten, the page document is
persisted, and the forwarding-document write at lines 442-449 passes six
arguments to the five-parameter utils.write_html_2_file (web_url positionally
and additional_headers again by keyword), which raises TypeError.  The
registries in the result model the in-place mutation of the four dicts; on an
uncaught exception the Python dicts do also retain their mutations, which
this Except-based model drops, and no settled claim observes them. -/
def fetch_page_recursively (env : Env)
    (folder_path download_folder html_template space : String) :
    RemotePage → IOState → NameRegistry → NameRegistry →
    Except PyError (Option PathCollection × IOState × NameRegistry × NameRegistry)
  | .mk page_id meta attachmentBatches childBatches, st, regP, regA =>
    match meta with
    | none => .ok (none, st, regP, regA)
    | some pageData => do
      let page_title := pageData.1
      let page_content := pageData.2
      let web_url := "https://boomtrain.atlassian.net/wiki/spaces/" ++ space ++ "/pages/" ++
        page_id ++ "/"
      let fn := provide_unique_file_name regP page_title false (some "html")
      let file_name := fn.1
      let regP := fn.2
      let path_collection : PathCollection :=
        .mk (some file_name) (some page_title) (some []) (some [])
      let al ← attachmentsPaginationLoop env download_folder attachmentBatches path_collection st regA
      let path_collection := al.1
      let st := al.2.1
      let regA := al.2.2
      let hr ← handle_html_references env page_content regP
      let page_content := hr.1
      let regP := hr.2
      let file_path := folder_path ++ "/" ++ file_name
      let child_attachments ← match PathCollection.child_attachments path_collection with
        | some l => Except.ok l
        | none => Except.error PyError.keyError
      let page_content := page_content ++ create_html_attachment_index env child_attachments
      let st : IOState :=
        { st with fs := (file_path,
            env.render_template html_template page_title page_content
              (pyJoinStrChars "\n\t" web_url)) :: st.fs }
      let _id_file_path := folder_path ++ "/" ++ page_id ++ ".html"
      let _id_file_page_title := "Forward to page " ++ page_title
      let original_file_link := env.encode_url (sanitize_for_filename file_name)
      let _id_file_page_content := html_forward_message original_file_link page_title
      let _id_file_forward_header :=
        "<meta http-equiv=\"refresh\" content=\"0; url=" ++ original_file_link ++ "\" />"
      let _ ← (Except.error PyError.typeError : Except PyError Unit)
      let cl ← childPagesLoop env folder_path download_folder html_template space
        childBatches path_collection st regP
      .ok (some cl.1, cl.2.1, cl.2.2, regA)
termination_by p _st _regP _regA => sizeOf p

/-- The child-page pagination loop of fetch_page_recursively (lines 452-481),
one list entry per JSON response batch. -/
def childPagesLoop (env : Env)
    (folder_path download_folder html_template space : String) :
    List (List RemotePage) → PathCollection → IOState → NameRegistry →
    Except PyError (PathCollection × IOState × NameRegistry)
  | [], path_collection, st, regP => .ok (path_collection, st, regP)
  | batch :: rest, path_collection, st, regP => do
    let r ← childPageBatchLoop env folder_path download_folder html_template space
      batch path_collection st regP
    childPagesLoop env folder_path download_folder html_template space rest r.1 r.2.1 r.2.2
termination_by batches _pc _st _regP => sizeOf batches

/-- The loop over one batch of children (lines 463-475).  The recursive call
passes the page registry through but not the attachment registries, so every
child starts with fresh attachment dicts; a child result of None, or one
without the child_pages key, is not appended. -/
def childPageBatchLoop (env : Env)
    (folder_path download_folder html_template space : String) :
    List RemotePage → PathCollection → IOState → NameRegistry →
    Except PyError (PathCollection × IOState × NameRegistry)
  | [], path_collection, st, regP => .ok (path_collection, st, regP)
  | child :: others, path_collection, st, regP => do
    let r ← fetch_page_recursively env folder_path download_folder html_template space
      child st regP NameRegistry.empty
    let path_collection ← match r.1 with
      | some paths =>
        if (PathCollection.child_pages paths).isSome then appendChildPage path_collection paths
        else Except.ok path_collection
      | none => Except.ok path_collection
    childPageBatchLoop env folder_path download_folder html_template space
      others path_collection r.2.1 r.2.2.1
termination_by children _pc _st _regP => sizeOf children

end

/-- A sequence of assignments through one registry, each with its own title,
folder flag and explicit extension, folded in call order. -/
def assignList (reg : NameRegistry) (l : List (String × Bool × Option String)) : NameRegistry :=
  l.foldl (fun r p => (provide_unique_file_name r p.1 p.2.1 p.2.2).2) reg

/-- A concrete instantiation of the external collaborators, used by the
closed evaluations below: the transport always serves content, the parser
yields an empty tree, quoting is the identity and the template substitution
concatenates title and content. -/
def testEnv : Env :=
  { confluence_base_url := "http://wiki"
    download_sub_folder := "attachments"
    confluence_thumbnail_formats := ["gif", "jpeg", "jpg", "png"]
    confluence_generated_preview_formats := ["pdf"]
    net := fun _ => .ok "data"
    parse := fun _ => some []
    render := fun _ => ""
    decode_url := id
    encode_url := id
    render_template := fun _ title content _ => title ++ "|" ++ content }

/-- A page whose metadata fetch succeeds, whose single attachment listing
response is empty and which has no children. -/
def c1_page : RemotePage := .mk "10" (some ("Start", "")) [[]] []

/-- The record built at line 396 for c1_page. -/
def c1_record : PathCollection :=
  .mk (some "Start.html") (some "Start") (some []) (some [])

/-- A child page whose metadata fetch succeeds. -/
def c8_goodChild : RemotePage := .mk "21" (some ("Child A", "")) [[]] []

/-- A child page whose metadata fetch fails with a ConfluenceException. -/
def c8_badChild : RemotePage := .mk "22" none [] []

/-- A parent page with a successful child, a failing child and another
successful child in one batch. -/
def c8_parent : RemotePage :=
  .mk "20" (some ("Parent", "")) [[]]
    [[c8_goodChild, c8_badChild, .mk "23" (some ("Child B", "")) [[]] []]]

/-- First assignment of the C2 scenario: the title A_ takes the base name
A_ itself. -/
def c2_first : String × NameRegistry := provide_unique_file_name NameRegistry.empty "A_"

/-- Second assignment: the distinct title A? also sanitizes to A_ and is
suffixed to A__1. -/
def c2_second : String × NameRegistry := provide_unique_file_name c2_first.2 "A?"

/-- Third assignment: the fresh, distinct title A__1 sanitizes to itself,
misses duplicate_file_names (which only records base names) and is emitted
verbatim. -/
def c2_third : String × NameRegistry := provide_unique_file_name c2_second.2 "A__1"

/-- First assignment of the C6 scenario. -/
def c6_first : String × NameRegistry :=
  provide_unique_file_name NameRegistry.empty "Team: Plan" false (some "html")

/-- Second assignment of the C6 scenario, through the same registry. -/
def c6_second : String × NameRegistry :=
  provide_unique_file_name c6_first.2 "Team/ Plan" false (some "html")

/-- The markup fragment of the C4 counterexample. -/
def c4_markup : String := "<a href=\"x/display/\"></a>"

/-- The collaborators for the C4 counterexample: html.parser parses the
fragment into a single classless anchor whose href is x/display/. -/
def c4_env : Env :=
  { testEnv with parse := fun s => if s = c4_markup then some [⟨"a", [("href", "x/display/")]⟩] else none }

/-- Collaborators whose parser rejects every input, for the parse-failure
branch. -/
def c4_parse_fail_env : Env := { testEnv with parse := fun _ => none }

/-- A filesystem that already holds the destination file of the C9 witness. -/
def c9_state : IOState := ⟨[("folder/peak.jpeg", "bytes")], []⟩

example : sanitize_for_filename "Team: Plan" = "Team_ Plan" := rfl

example : sanitize_for_filename "Team/ Plan" = "Team_ Plan" := rfl

example : derive_downloaded_file_name "/x/download/" = .error .indexError := rfl

theorem assignFreshName_matching (reg : NameRegistry) (t : String) (f : Bool)
    (e : Option String) :
    ((assignFreshName reg t f e).2).file_matching
      = (t, (assignFreshName reg t f e).1) :: reg.file_matching := rfl

/-- An existing title binding survives any later assignment: the memo dict
only ever grows by fresh cons cells for unseen titles. -/
theorem lookup_preserved (reg : NameRegistry) (t t2 : String) (n : String) (f : Bool)
    (e : Option String) (h : reg.file_matching.lookup t = some n) :
    ((provide_unique_file_name reg t2 f e).2).file_matching.lookup t = some n := by
  unfold provide_unique_file_name
  cases h2 : reg.file_matching.lookup t2 with
  | some fn => simpa using h
  | none =>
    have hne : (t == t2) = false := by
      by_cases ht : t = t2
      · rw [ht, h2] at h
        exact Option.noConfusion h
      · exact beq_eq_false_iff_ne.mpr ht
    simp only [assignFreshName_matching]
    simp [List.lookup, hne, h]

/-- After an assignment the title is bound to the returned name. -/
theorem lookup_after_assign (reg : NameRegistry) (t : String) (f : Bool) (e : Option String) :
    ((provide_unique_file_name reg t f e).2).file_matching.lookup t
      = some ((provide_unique_file_name reg t f e).1) := by
  unfold provide_unique_file_name
  cases h2 : reg.file_matching.lookup t with
  | some fn => simpa using h2
  | none =>
    simp only [assignFreshName_matching]
    simp [List.lookup]

/-- A title already bound in the memo dict is returned as bound. -/
theorem provide_unique_of_lookup (reg : NameRegistry) (t n : String) (f : Bool)
    (e : Option String) (h : reg.file_matching.lookup t = some n) :
    (provide_unique_file_name reg t f e).1 = n := by
  unfold provide_unique_file_name
  rw [h]

/-- An existing title binding survives any sequence of later assignments. -/
theorem lookup_preserved_assignList (l : List (String × Bool × Option String))
    (reg : NameRegistry) (t n : String) (h : reg.file_matching.lookup t = some n) :
    (assignList reg l).file_matching.lookup t = some n := by
  induction l generalizing reg with
  | nil => simpa [assignList] using h
  | cons p rest ih =>
    simp only [assignList, List.foldl_cons]
    exact ih _ (lookup_preserved reg t p.1 n p.2.1 p.2.2 h)

/-- The record returned by process_attachments carries only the
child_attachments key. -/
theorem process_attachments_shape (env : Env) (folder : String)
    (results : List AttachmentRef) (st : IOState) (regA : NameRegistry)
    (r : IOState × NameRegistry × PathCollection)
    (h : process_attachments env folder results st regA = .ok r) :
    r.2.2.file_path = none ∧ r.2.2.page_title = none ∧ r.2.2.child_pages = none := by
  unfold process_attachments at h
  cases hp : processAttachmentList env folder results st regA with
  | error e => rw [hp] at h; exact Except.noConfusion h
  | ok q =>
    rw [hp] at h
    cases Except.ok.inj h
    exact ⟨rfl, rfl, rfl⟩

/-- After at least one pagination round the attachment loop has replaced the
record of line 396 wholesale: only the child_attachments key remains,
whatever record the loop started from. -/
theorem attachmentsPaginationLoop_drops_keys (env : Env) (folder : String)
    (batches : List (List AttachmentRef)) :
    ∀ (batch : List AttachmentRef) (pc : PathCollection) (st : IOState)
      (regA : NameRegistry) (out : PathCollection × IOState × NameRegistry),
      attachmentsPaginationLoop env folder (batch :: batches) pc st regA = Except.ok out →
      out.1.file_path = none ∧ out.1.page_title = none ∧ out.1.child_pages = none := by
  induction batches with
  | nil =>
    intro batch pc st regA out h
    simp only [attachmentsPaginationLoop] at h
    cases hp : process_attachments env folder batch st regA with
    | error e => rw [hp] at h; exact Except.noConfusion h
    | ok r =>
      rw [hp] at h
      simp only [attachmentsPaginationLoop] at h
      cases Except.ok.inj h
      exact process_attachments_shape env folder batch st regA r hp
  | cons b rest ih =>
    intro batch pc st regA out h
    simp only [attachmentsPaginationLoop] at h
    cases hp : process_attachments env folder batch st regA with
    | error e => rw [hp] at h; exact Except.noConfusion h
    | ok r =>
      rw [hp] at h
      exact ih b r.2.2 r.1 r.2.1 out h

/-- The rightmost-index search misses a character that does not occur. -/
theorem lastIndexOfChar_of_not_mem (l : List Char) (c : Char) (h : c ∉ l) :
    lastIndexOfChar l c = -1 := by
  induction l with
  | nil => rfl
  | cons x xs ih =>
    simp only [List.mem_cons, not_or] at h
    have hxs := ih h.2
    have hxc : ¬ x = c := fun hx => h.1 hx.symm
    simp [lastIndexOfChar, hxs, hxc]

/-- str.rfind returns -1 when the needle does not occur. -/
theorem pyRFind_of_not_mem (s : String) (c : Char) (h : c ∉ s.toList) :
    pyRFind s c = -1 :=
  lastIndexOfChar_of_not_mem s.toList c h

/-- The slice at bound -1 removes the last character. -/
theorem pySliceTo_neg_one (s : String) : pySliceTo s (-1) = s.take (s.length - 1) := by
  have h1 : ¬ (0 : Int) ≤ -1 := by decide
  have h2 : ((-1 : Int)).natAbs = 1 := rfl
  rw [pySliceTo, if_neg h1, h2]

/-- C1: for every page whose metadata fetch succeeds, fetch_page_recursively
is claimed to return an artifact record with the file_path, page_title,
child_pages and child_attachments keys.  The code refutes this twice over:
the concrete run below aborts with TypeError at the forwarding-document
write (six arguments against the five parameters of write_html_2_file), and
the attachment pagination loop, run on the very record of line 396, returns
a record that has already lost the file_path, page_title and child_pages
keys, because line 414 replaces the record with the result of
process_attachments. -/
theorem fetch_page_recursively_loses_artifact_record :
    fetch_page_recursively testEnv "exp/SP" "exp/SP/attachments" "tpl" "SP" c1_page
        IOState.empty NameRegistry.empty NameRegistry.empty = .error .typeError
    ∧ attachmentsPaginationLoop testEnv "exp/SP/attachments" [[]] c1_record
        IOState.empty NameRegistry.empty
      = .ok (PathCollection.mk none none none (some []), IOState.empty, NameRegistry.empty) := by
  constructor
  · simp only [c1_page, fetch_page_recursively]
    rfl
  · rfl

/-- C2: the emitted names are claimed to be pairwise distinct for distinct
titles, in particular when a later title equals an already emitted suffixed
name.  Evaluating the code on the titles A_, A? and A__1 (the first two
sanitize to A_) emits A__1 for both A? and A__1, because the suffixed name
is never recorded in duplicate_file_names. -/
theorem provide_unique_file_name_duplicate_emission :
    c2_second.1 = "A__1" ∧ c2_third.1 = "A__1" := ⟨rfl, rfl⟩

/-- C3: assigning the same title twice through one registry returns the same
local name both times, whatever assignments (and whatever flags) come in
between: the memo lookup of lines 92-93 is decided by file_matching, which
later assignments only extend with fresh titles. -/
theorem provide_unique_file_name_memoizes
    (reg : NameRegistry) (t : String) (f1 f2 : Bool) (e1 e2 : Option String)
    (rest : List (String × Bool × Option String)) :
    (provide_unique_file_name
        (assignList (provide_unique_file_name reg t f1 e1).2 rest) t f2 e2).1
      = (provide_unique_file_name reg t f1 e1).1 := by
  have h1 := lookup_after_assign reg t f1 e1
  have h2 := lookup_preserved_assignList rest _ t _ h1
  exact provide_unique_of_lookup _ t _ f2 e2 h2

/-- C4 counterexample: handle_html_references is claimed never to raise.  On
the parseable fragment with a classless display link whose href has fewer
than four slash-separated parts, get_page_title raises IndexError out of the
rewriter (both subscripts at lines 196 and 198 are out of range). -/
theorem handle_html_references_raises_on_short_display_link :
    handle_html_references c4_env c4_markup NameRegistry.empty = .error .indexError := rfl

/-- C4 amended: when the markup cannot be parsed, handle_html_references
returns the input unchanged (byte for byte) with only a printed warning and
no exception; the never-raises part of the claim fails only for markup that
parses but carries malformed references. -/
theorem handle_html_references_parse_failure_returns_input (env : Env)
    (html_content : String) (reg : NameRegistry) (h : env.parse html_content = none) :
    handle_html_references env html_content reg = .ok (html_content, reg) := by
  by_cases hc : html_content = ""
  · subst hc; simp [handle_html_references]
  · simp [handle_html_references, h, hc]

theorem handle_html_references_parse_failure_returns_input_witness :
    c4_parse_fail_env.parse "<div" = none
    ∧ handle_html_references c4_parse_fail_env "<div" NameRegistry.empty
        = .ok ("<div", NameRegistry.empty) :=
  ⟨rfl, handle_html_references_parse_failure_returns_input c4_parse_fail_env "<div"
    NameRegistry.empty rfl⟩

/-- C5: the three documented derivations of derive_downloaded_file_name. -/
theorem derive_downloaded_file_name_examples :
    derive_downloaded_file_name
        "/download/attachments/524291/peak.jpeg?version=1&modificationDate=1459521827579&api=v2"
      = .ok (some "524291_attachments_peak.jpeg")
    ∧ derive_downloaded_file_name
        "/download/thumbnails/524291/Harvey.jpg?version=1&modificationDate=1459521827579&api=v2"
      = .ok (some "524291_thumbnails_Harvey.jpg")
    ∧ derive_downloaded_file_name "/rest/documentConversion/latest/conversion/thumbnail/99/1"
      = .ok (some "generated_preview_99.jpg") := ⟨rfl, rfl, rfl⟩

/-- C6: the titles Team: Plan and Team/ Plan both sanitize to Team_ Plan;
through one fresh registry with the explicit html extension the first yields
Team_ Plan.html and the second Team_ Plan_1.html. -/
theorem provide_unique_file_name_collision_suffixing :
    c6_first.1 = "Team_ Plan.html" ∧ c6_second.1 = "Team_ Plan_1.html" := ⟨rfl, rfl⟩

/-- C7 counterexample: a folder assignment of the empty title yields the
empty local name, not a non-empty one. -/
theorem provide_unique_file_name_empty_folder_title_empty_name :
    (provide_unique_file_name NameRegistry.empty "" true none).1 = "" := rfl

/-- C7 amended: name assignment is total (the embedding is a total function,
matching the exception-free Python code), and on a fresh registry the empty
title yields the non-empty name .html under the explicit html extension but
the empty name for a folder assignment and for an inferred-extension
assignment. -/
theorem provide_unique_file_name_empty_title_names :
    (provide_unique_file_name NameRegistry.empty "" false (some "html")).1 = ".html"
    ∧ (provide_unique_file_name NameRegistry.empty "" true none).1 = ""
    ∧ (provide_unique_file_name NameRegistry.empty "" false none).1 = "" := ⟨rfl, rfl, rfl⟩

/-- C8: a failed child fetch indeed yields no artifact and leaves all state
untouched (first conjunct), but the rest of the claim fails on the code: the
parent run aborts with TypeError at its own forwarding-document write before
the child loop is ever reached (second conjunct), and even the child loop
taken in isolation aborts on the first successfully fetched child with the
same TypeError instead of appending it (third conjunct), while a batch
holding only the failing child completes with no appended artifact (fourth
conjunct). -/
theorem fetch_page_recursively_child_failure_isolation_bug :
    fetch_page_recursively testEnv "exp/SP" "exp/SP/attachments" "tpl" "SP" c8_badChild
        IOState.empty NameRegistry.empty NameRegistry.empty
      = .ok (none, IOState.empty, NameRegistry.empty, NameRegistry.empty)
    ∧ fetch_page_recursively testEnv "exp/SP" "exp/SP/attachments" "tpl" "SP" c8_parent
        IOState.empty NameRegistry.empty NameRegistry.empty = .error .typeError
    ∧ childPageBatchLoop testEnv "exp/SP" "exp/SP/attachments" "tpl" "SP" [c8_goodChild]
        (PathCollection.mk none none none (some [])) IOState.empty NameRegistry.empty
      = .error .typeError
    ∧ childPageBatchLoop testEnv "exp/SP" "exp/SP/attachments" "tpl" "SP" [c8_badChild]
        (PathCollection.mk none none none (some [])) IOState.empty NameRegistry.empty
      = .ok (PathCollection.mk none none none (some []), IOState.empty, NameRegistry.empty) := by
  refine ⟨?_, ?_, ?_, ?_⟩
  · simp only [c8_badChild, fetch_page_recursively]
  · simp only [c8_parent, fetch_page_recursively]
    rfl
  · simp only [childPageBatchLoop, c8_goodChild, fetch_page_recursively]
    rfl
  · simp only [childPageBatchLoop, c8_badChild, fetch_page_recursively]
    rfl

/-- C9: when the destination path already exists in the filesystem,
download_file issues no network transfer, changes nothing (neither the file
contents nor the transfer log) and still returns the destination path. -/
theorem download_file_skips_existing (env : Env) (st : IOState)
    (clean_url download_folder downloaded_file_name : String)
    (h : (st.fs.lookup (download_folder ++ "/" ++ downloaded_file_name)).isSome = true) :
    download_file env st clean_url download_folder downloaded_file_name
      = (st, download_folder ++ "/" ++ downloaded_file_name) := by
  simp [download_file, h]

theorem download_file_skips_existing_witness :
    (c9_state.fs.lookup ("folder" ++ "/" ++ "peak.jpeg")).isSome = true
    ∧ download_file testEnv c9_state "/download/x" "folder" "peak.jpeg"
        = (c9_state, "folder" ++ "/" ++ "peak.jpeg") :=
  ⟨rfl, download_file_skips_existing testEnv c9_state "/download/x" "folder" "peak.jpeg" rfl⟩

/-- C10: for a /download/ URL whose fifth slash-separated part exists and
contains no question mark, the derived name ends in that part with its last
character removed (rfind returns -1 and the slice drops one character); and
a URL matching neither shape derives to None. -/
theorem derive_downloaded_file_name_general :
    (∀ (url pid ftype fname : String),
      pyContains url "/download/" = true →
      (pySplit url "/")[3]? = some pid →
      (pySplit url "/")[2]? = some ftype →
      (pySplit url "/")[4]? = some fname →
      '?' ∉ fname.toList →
      derive_downloaded_file_name url
        = .ok (some (pid ++ "_" ++ ftype ++ "_" ++ fname.take (fname.length - 1))))
    ∧ (∀ url : String,
      pyContains url "/download/" = false →
      pyContains url docConvSegment = false →
      derive_downloaded_file_name url = .ok none) := by
  constructor
  · intro url pid ftype fname h1 h3 h2 h4 h5
    rw [derive_downloaded_file_name, if_pos h1]
    simp only [h2, h3, h4]
    rw [pyRFind_of_not_mem fname '?' h5, pySliceTo_neg_one]
  · intro url h1 h2
    rw [derive_downloaded_file_name, if_neg (by simp [h1]), if_neg (by simp [h2])]

theorem derive_downloaded_file_name_general_witness :
    derive_downloaded_file_name "/download/attachments/123/file"
      = .ok (some ("123" ++ "_" ++ "attachments" ++ "_" ++ "file".take ("file".length - 1)))
    ∧ derive_downloaded_file_name "/foo/bar" = .ok none :=
  ⟨derive_downloaded_file_name_general.1 "/download/attachments/123/file" "123" "attachments"
      "file" rfl rfl rfl rfl (by decide),
    derive_downloaded_file_name_general.2 "/foo/bar" rfl rfl⟩

end ConfluenceDumper
